import Mathlib

/-!
# Verification of the job-board backend core

A shallow embedding of the `job_board_api` Django application
(`api/models.py`, `api/views.py`, `api/permissions.py`,
`api/serializers.py`, `api/signals.py`,
`api/management/commands/closejob.py`) together with proofs of the
specification's claims about it.

The relational store is modelled as lists of rows; timestamps are `Nat`;
each HTTP view body becomes a pure function from a database state (and the
request data) to an outcome paired with the successor state.
-/

namespace JobBoard

/-- `User.USER_TYPES` in `models.py`: the two user roles. -/
inductive Role where
  | job_seeker
  | employer
deriving DecidableEq, Repr

/-- `JobApplication.STATUS_CHOICES` in `models.py`. -/
inductive AppStatus where
  | PENDING
  | REVIEWED
  | SHORTLISTED
  | REJECTED
  | HIRED
deriving DecidableEq, Repr

/-- Row of the custom `User` model (`models.py`).  `skills` and `company`
are `blank=True, null=True` columns, hence `Option String`;
`password_hash` stands for the hashed password stored by `set_password`. -/
structure User where
  id : Nat
  email : String
  full_name : String
  user_type : Role
  phone_number : String
  skills : Option String
  company : Option String
  password_hash : String
  is_active : Bool
deriving DecidableEq, Repr

/-- Row of `JobListing` (`models.py`).  `employer` holds the foreign key
(the owning user's primary key); `company_name` mirrors the owner's
`company` column, which is nullable, hence `Option String`. -/
structure JobListing where
  id : Nat
  title : String
  description : String
  requirements : String
  location : String
  salary : String
  company_name : Option String
  employer : Nat
  is_active : Bool
  created_at : Nat
  updated_at : Nat
deriving DecidableEq, Repr

/-- Row of `JobApplication` (`models.py`). `job` and `applicant` are the
foreign keys of the `unique_together ["job", "applicant"]` constraint. -/
structure JobApplication where
  id : Nat
  job : Nat
  applicant : Nat
  resume : String
  cover_letter : Option String
  status : AppStatus
  created_at : Nat
  updated_at : Nat
deriving DecidableEq, Repr

/-- Row of `SavedJob` (`models.py`), with
`unique_together ["job", "user"]`. -/
structure SavedJob where
  id : Nat
  job : Nat
  user : Nat
  saved_at : Nat
deriving DecidableEq, Repr

/-- DRF `Token` row: an opaque key bound to one user. -/
structure Token where
  key : String
  user : Nat
deriving DecidableEq, Repr

/-- The relational store.  `next_id` supplies fresh primary keys and
`now` is the clock used for `auto_now_add` / `timezone.now` columns. -/
structure DBState where
  users : List User
  listings : List JobListing
  applications : List JobApplication
  saved_jobs : List SavedJob
  tokens : List Token
  next_id : Nat
  now : Nat
deriving DecidableEq, Repr

def findUserById (s : DBState) (uid : Nat) : Option User :=
  s.users.find? (fun u => u.id == uid)

def findListingById (s : DBState) (lid : Nat) : Option JobListing :=
  s.listings.find? (fun l => l.id == lid)

/-! ## Authorization policy (`permissions.py`)

A request carries either an authenticated user or no credentials
(`none`, Django's `AnonymousUser`, for which `is_authenticated` is
false).  DRF evaluates `IsAuthenticated` before the custom permission
classes, so an unauthenticated caller is rejected with a 401 before any
role rule runs; a failing role/ownership rule yields a 403. -/

/-- Outcome of the permission layer. -/
inductive Decision where
  | allow
  | denyUnauthenticated
  | denyForbidden
deriving DecidableEq, Repr

/-- The `ModelViewSet` actions routed to `JobListingViewSet`. -/
inductive ListingAction where
  | list
  | retrieve
  | create
  | update
  | partial_update
  | destroy
deriving DecidableEq, Repr

/-- Whether the HTTP method behind the action is in `SAFE_METHODS`
(`list`/`retrieve` use GET; `create` POST; `update` PUT;
`partial_update` PATCH; `destroy` DELETE). -/
def ListingAction.safeMethod : ListingAction → Bool
  | .list => true
  | .retrieve => true
  | _ => false

/-- `IsEmployerAndOwnerOrReadOnly.has_permission`: list/retrieve need only
authentication, everything else also needs the employer role.  The caller
here is already authenticated (`is_authenticated` true). -/
def hasPermissionListing (u : User) (a : ListingAction) : Bool :=
  if a = .list ∨ a = .retrieve then true
  else u.user_type == Role.employer

/-- `IsEmployerAndOwnerOrReadOnly.has_object_permission`: safe methods are
always allowed; mutation requires `obj.employer == request.user` and the
employer role. -/
def hasObjectPermissionListing (u : User) (a : ListingAction) (l : JobListing) : Bool :=
  if a.safeMethod then true
  else l.employer == u.id && u.user_type == Role.employer

/-- Combined permission decision for `JobListingViewSet`
(`IsAuthenticated`, then `IsEmployerAndOwnerOrReadOnly.has_permission`,
then — for detail actions carrying an object —
`has_object_permission`). -/
def listingDecision (caller : Option User) (a : ListingAction)
    (obj : Option JobListing) : Decision :=
  match caller with
  | none => .denyUnauthenticated
  | some u =>
    if hasPermissionListing u a then
      match obj with
      | none => .allow
      | some l =>
        if hasObjectPermissionListing u a l then .allow else .denyForbidden
    else .denyForbidden

/-- `IsJobSeeker.has_permission` composed with `IsAuthenticated`, as used
by `ApplyJobView`, `SaveJobView` and `SavedJobListView`. -/
def jobSeekerDecision (caller : Option User) : Decision :=
  match caller with
  | none => .denyUnauthenticated
  | some u =>
    if u.user_type == Role.job_seeker then .allow else .denyForbidden

/-! ## Storage layer

The `unique_together` constraints of `JobApplication` and `SavedJob` and
the `unique=True` email column of `User` live in the schema, so the
insert primitives below enforce them themselves: inserting a duplicate
raises `IntegrityError` regardless of what the application code checked
beforehand. -/

/-- A storage-layer failure (Django `IntegrityError`). -/
inductive DBError where
  | integrityError
deriving DecidableEq, Repr

/-- Insert a `JobApplication` row, enforcing
`unique_together ["job", "applicant"]`. -/
def dbInsertApplication (s : DBState) (a : JobApplication) :
    Except DBError DBState :=
  if s.applications.any (fun b => b.job == a.job && b.applicant == a.applicant) then
    .error .integrityError
  else
    .ok { s with applications := s.applications ++ [a] }

/-- Insert a `SavedJob` row, enforcing `unique_together ["job", "user"]`. -/
def dbInsertSavedJob (s : DBState) (r : SavedJob) : Except DBError DBState :=
  if s.saved_jobs.any (fun b => b.job == r.job && b.user == r.user) then
    .error .integrityError
  else
    .ok { s with saved_jobs := s.saved_jobs ++ [r] }

/-- Insert a `User` row, enforcing the `unique=True` email column. -/
def dbInsertUser (s : DBState) (u : User) : Except DBError DBState :=
  if s.users.any (fun v => v.email == u.email) then
    .error .integrityError
  else
    .ok { s with users := s.users ++ [u] }

/-! ## Application workflow (`ApplyJobView.post` in `views.py`) -/

/-- The request body of `POST /api/jobs/apply/<job_id>/`.
`JobApplicationSerializer` exposes a writable `job` primary-key field and
a required `resume` file (`none` = field absent) plus an optional
`cover_letter`; `status`, `created_at` and `job_title` are read-only. -/
structure ApplyPayload where
  job : Nat
  resume : Option String
  cover_letter : Option String
deriving DecidableEq, Repr

/-- `serializer.is_valid()` for `JobApplicationSerializer`: the `resume`
file must be present and the writable `job` field must reference an
existing `JobListing` primary key. -/
def applyPayloadValid (s : DBState) (p : ApplyPayload) : Bool :=
  p.resume.isSome && s.listings.any (fun l => l.id == p.job)

/-- The `JobApplication` row built by `serializer.save(applicant=request.user,
job=job)`: status defaults to `PENDING`, timestamps are `auto_now_add` /
`auto_now`, the primary key is fresh. -/
def mkApplication (sIns : DBState) (jobId uid : Nat) (r : String)
    (cover : Option String) : JobApplication :=
  { id := sIns.next_id, job := jobId, applicant := uid, resume := r,
    cover_letter := cover, status := .PENDING, created_at := sIns.now,
    updated_at := sIns.now }

/-- Outcome of `ApplyJobView.post` (plus the dispatch-level permission
outcomes and the uncaught-exception outcome `serverError`). -/
inductive ApplyOutcome where
  | unauthenticated
  | forbidden
  | notFoundOrInactive
  | alreadyApplied
  | invalidPayload
  | created
  | serverError
deriving DecidableEq, Repr

/-- The body of `ApplyJobView.post` with the moment between the
existence check and the insert made explicit: the listing lookup, the
duplicate check and payload validation run against `sCheck`, while the
`serializer.save` insert lands on `sIns`.  A sequential request is the
special case `sIns = sCheck` (`applyPost` below); distinct states model
a concurrent request committing in between.  `serializer.save` raises on
a storage `IntegrityError` and the view has no handler for it, so that
branch is the uncaught `serverError`. -/
def applyPhases (sCheck sIns : DBState) (u : User) (job_id : Nat)
    (p : ApplyPayload) : ApplyOutcome × DBState :=
  match sCheck.listings.find? (fun l => l.id == job_id && l.is_active) with
  | none => (.notFoundOrInactive, sIns)
  | some job =>
    if sCheck.applications.any (fun a => a.job == job.id && a.applicant == u.id) then
      (.alreadyApplied, sIns)
    else if applyPayloadValid sCheck p then
      match p.resume with
      | none => (.invalidPayload, sIns)
      | some r =>
        match dbInsertApplication sIns
            (mkApplication sIns job.id u.id r p.cover_letter) with
        | .error _ => (.serverError, sIns)
        | .ok s' => (.created, { s' with next_id := s'.next_id + 1 })
    else (.invalidPayload, sIns)

/-- `ApplyJobView.post` run sequentially (check and insert on the same
state). -/
def applyPost (s : DBState) (u : User) (job_id : Nat) (p : ApplyPayload) :
    ApplyOutcome × DBState :=
  applyPhases s s u job_id p

/-- The full request pipeline for `POST /api/jobs/apply/<job_id>/`:
`IsAuthenticated` and `IsJobSeeker` gate the view body. -/
def handleApply (s : DBState) (caller : Option User) (job_id : Nat)
    (p : ApplyPayload) : ApplyOutcome × DBState :=
  match jobSeekerDecision caller with
  | .denyUnauthenticated => (.unauthenticated, s)
  | .denyForbidden => (.forbidden, s)
  | .allow =>
    match caller with
    | none => (.unauthenticated, s)
    | some u => applyPost s u job_id p

/-- Number of `JobApplication` rows for one (listing, applicant) pair. -/
def countApplications (s : DBState) (job_id applicant_id : Nat) : Nat :=
  (s.applications.filter
    (fun a => a.job == job_id && a.applicant == applicant_id)).length

/-! ## Saved-job workflow (`SaveJobView.post` in `views.py`) -/

/-- The `SavedJob` row built by `SavedJob.objects.create(job=job,
user=request.user)`: `saved_at` defaults to `timezone.now`. -/
def mkSavedJob (sIns : DBState) (jobId uid : Nat) : SavedJob :=
  { id := sIns.next_id, job := jobId, user := uid, saved_at := sIns.now }

/-- Outcome of `SaveJobView.post`. -/
inductive SaveOutcome where
  | unauthenticated
  | forbidden
  | notFound
  | alreadySaved
  | created
  | serverError
deriving DecidableEq, Repr

/-- The body of `SaveJobView.post`, again with the check state and the
insert state separated; a sequential request uses the same state twice.
The lookup is `JobListing.objects.get(id=job_id)` — no `is_active`
filter.  `SavedJob.objects.create` with a duplicate pair violates the
unique constraint, and the view has no handler for `IntegrityError`. -/
def savePhases (sCheck sIns : DBState) (u : User) (job_id : Nat) :
    SaveOutcome × DBState :=
  match sCheck.listings.find? (fun l => l.id == job_id) with
  | none => (.notFound, sIns)
  | some job =>
    if sCheck.saved_jobs.any (fun r => r.job == job.id && r.user == u.id) then
      (.alreadySaved, sIns)
    else
      match dbInsertSavedJob sIns (mkSavedJob sIns job.id u.id) with
      | .error _ => (.serverError, sIns)
      | .ok s' => (.created, { s' with next_id := s'.next_id + 1 })

/-- `SaveJobView.post` run sequentially. -/
def savePost (s : DBState) (u : User) (job_id : Nat) :
    SaveOutcome × DBState :=
  savePhases s s u job_id

/-- The full pipeline for `POST /api/jobs/save/<job_id>/`
(`IsAuthenticated`, `IsJobSeeker`, then the body). -/
def handleSave (s : DBState) (caller : Option User) (job_id : Nat) :
    SaveOutcome × DBState :=
  match jobSeekerDecision caller with
  | .denyUnauthenticated => (.unauthenticated, s)
  | .denyForbidden => (.forbidden, s)
  | .allow =>
    match caller with
    | none => (.unauthenticated, s)
    | some u => savePost s u job_id

/-- Number of `SavedJob` rows for one (listing, user) pair. -/
def countSaved (s : DBState) (job_id user_id : Nat) : Nat :=
  (s.saved_jobs.filter
    (fun r => r.job == job_id && r.user == user_id)).length

/-! ## Listing store (`JobListingViewSet`, `JobListing.save`, `closejob`) -/

/-- `JobListing.save` in `models.py`: every save first copies the owning
employer's `company` column into `company_name`.  `owner` is the `User`
object reached through `self.employer`. -/
def JobListing.applySave (l : JobListing) (owner : User) : JobListing :=
  { l with company_name := owner.company }

/-- The writable part of `JobListingSerializer` (`fields = "__all__"`,
with `employer` and `company_name` read-only; `is_active` has a model
default so the client may omit it). -/
structure ListingPayload where
  title : String
  description : String
  requirements : String
  location : String
  salary : String
  is_active : Option Bool
deriving DecidableEq, Repr

/-- Field validation for `JobListingSerializer`: the model's `CharField`
and `TextField` columns are required and non-blank. -/
def listingPayloadValid (p : ListingPayload) : Bool :=
  !p.title.isEmpty && !p.description.isEmpty && !p.requirements.isEmpty &&
    !p.location.isEmpty && !p.salary.isEmpty

/-- Outcome of a `JobListingViewSet` mutation. -/
inductive ListingOutcome where
  | unauthenticated
  | forbidden
  | notFound
  | validationError
  | serverError
  | ok (l : JobListing)
deriving DecidableEq, Repr

/-- Replace the row with `l.id` by `l`. -/
def storeListing (s : DBState) (l : JobListing) : DBState :=
  { s with listings := s.listings.map (fun x => if x.id == l.id then l else x) }

/-- `create` on `JobListingViewSet`: permission gate, validation, then
`perform_create` saves the instance with `employer = request.user`, so
`JobListing.save` reads `company_name` from the request user object. -/
def createListing (s : DBState) (caller : Option User) (p : ListingPayload) :
    ListingOutcome × DBState :=
  match listingDecision caller .create none with
  | .denyUnauthenticated => (.unauthenticated, s)
  | .denyForbidden => (.forbidden, s)
  | .allow =>
    match caller with
    | none => (.unauthenticated, s)
    | some u =>
      if listingPayloadValid p then
        let l := JobListing.applySave
          { id := s.next_id, title := p.title, description := p.description,
            requirements := p.requirements, location := p.location,
            salary := p.salary, company_name := none, employer := u.id,
            is_active := p.is_active.getD true,
            created_at := s.now, updated_at := s.now } u
        (.ok l, { s with listings := s.listings ++ [l], next_id := s.next_id + 1 })
      else (.validationError, s)

/-- `update` on `JobListingViewSet`: `has_permission`, `get_object` (404
when absent), `has_object_permission`, validation, then the instance is
saved — `JobListing.save` dereferences the `employer` foreign key, so
`company_name` is re-derived from the owner's current row. -/
def updateListing (s : DBState) (caller : Option User) (lid : Nat)
    (p : ListingPayload) : ListingOutcome × DBState :=
  match caller with
  | none => (.unauthenticated, s)
  | some u =>
    if hasPermissionListing u .update then
      match findListingById s lid with
      | none => (.notFound, s)
      | some inst =>
        if hasObjectPermissionListing u .update inst then
          if listingPayloadValid p then
            match findUserById s inst.employer with
            | none => (.serverError, s)
            | some owner =>
              let l := JobListing.applySave
                { inst with
                  title := p.title, description := p.description,
                  requirements := p.requirements, location := p.location,
                  salary := p.salary,
                  is_active := p.is_active.getD inst.is_active,
                  updated_at := s.now } owner
              (.ok l, storeListing s l)
          else (.validationError, s)
        else (.forbidden, s)
    else (.forbidden, s)

/-- Outcome of the `closejob` management command. -/
inductive CloseOutcome where
  | commandError
  | serverError
  | closed (l : JobListing)
deriving DecidableEq, Repr

/-- `Command.handle` in `closejob.py`: fetch the listing by primary key
(raising `CommandError` when absent), set `is_active = False` and save —
which again routes through `JobListing.save` and rewrites
`company_name` from the owner's current row. -/
def closeJob (s : DBState) (job_id : Nat) : CloseOutcome × DBState :=
  match findListingById s job_id with
  | none => (.commandError, s)
  | some job =>
    match findUserById s job.employer with
    | none => (.serverError, s)
    | some owner =>
      let l := JobListing.applySave
        { job with is_active := false, updated_at := s.now } owner
      (.closed l, storeListing s l)

/-! ## Registration and self-update
(`UserProfileSerializer`, `UserRegisterView`, `UserUpdateView`) -/

/-- Python falsiness of an optional text field: absent (`None`) or the
empty string.  `UserProfileSerializer.validate` tests
`not attrs.get("skills")` / `not attrs.get("company")`. -/
def blankOpt : Option String → Bool
  | none => true
  | some s => s.isEmpty

/-- Stand-in for Django's `set_password` hash (an external collaborator;
only the fact that the stored credential is the hash of the submitted
password matters here). -/
def hashPassword (p : String) : String :=
  "pbkdf2_sha256$" ++ p

/-- The writable fields of `UserProfileSerializer`. -/
structure RegisterPayload where
  full_name : String
  email : String
  password : String
  user_type : Role
  phone_number : String
  skills : Option String
  company : Option String
deriving DecidableEq, Repr

/-- Field-level validity (before the object-level `validate`): the
required `CharField`s are non-blank.  Email uniqueness is checked
separately because on update it excludes the instance itself. -/
def registerFieldsValid (p : RegisterPayload) : Bool :=
  !p.full_name.isEmpty && !p.email.isEmpty && !p.password.isEmpty &&
    !p.phone_number.isEmpty

/-- `UserProfileSerializer.validate`: role-specific required field. -/
def roleFieldError (p : RegisterPayload) : Option String :=
  if p.user_type = Role.job_seeker ∧ blankOpt p.skills then
    some "Job Seekers must have skills."
  else if p.user_type = Role.employer ∧ blankOpt p.company then
    some "Employers must provide a company."
  else none

/-- `Token.objects.get_or_create(user=user)`: reuse the bound token or
mint a fresh one (the opaque key is derived from the user's primary
key). -/
def tokenGetOrCreate (s : DBState) (uid : Nat) : Token × DBState :=
  match s.tokens.find? (fun t => t.user == uid) with
  | some t => (t, s)
  | none =>
    let t : Token := { key := "token-" ++ toString uid, user := uid }
    (t, { s with tokens := s.tokens ++ [t] })

/-- Outcome of `UserRegisterView.create`. -/
inductive RegisterOutcome where
  | validationError (msg : String)
  | serverError
  | created (token : Token) (u : User)
deriving DecidableEq, Repr

/-- `UserRegisterView.create` with the serializer's checks (on `sCheck`)
separated from the insert (on `sIns`): field validation, the email
`UniqueValidator` query, the object-level `validate`, then
`create_user` saves the row — where the schema's unique email column can
still raise an uncaught `IntegrityError` — and a token is minted. -/
def registerPhases (sCheck sIns : DBState) (p : RegisterPayload) :
    RegisterOutcome × DBState :=
  if ¬ registerFieldsValid p then (.validationError "field required", sIns)
  else if sCheck.users.any (fun v => v.email == p.email) then
    (.validationError "user with this email already exists.", sIns)
  else
    match roleFieldError p with
    | some m => (.validationError m, sIns)
    | none =>
      let u : User :=
        { id := sIns.next_id, email := p.email, full_name := p.full_name,
          user_type := p.user_type, phone_number := p.phone_number,
          skills := p.skills, company := p.company,
          password_hash := hashPassword p.password, is_active := true }
      match dbInsertUser sIns u with
      | .error _ => (.serverError, sIns)
      | .ok s1 =>
        let ts := tokenGetOrCreate s1 u.id
        (.created ts.1 u, { ts.2 with next_id := ts.2.next_id + 1 })

/-- `UserRegisterView.create` run sequentially. -/
def registerUser (s : DBState) (p : RegisterPayload) :
    RegisterOutcome × DBState :=
  registerPhases s s p

/-- Outcome of `UserUpdateView` (PUT). -/
inductive UpdateOutcome where
  | unauthenticated
  | notFound
  | validationError (msg : String)
  | updated (u : User)
deriving DecidableEq, Repr

/-- `UserProfileSerializer.update`: the password is popped and hashed,
the remaining writable fields overwrite the instance. -/
def applyProfileUpdate (u : User) (p : RegisterPayload) : User :=
  { u with
    full_name := p.full_name, email := p.email,
    user_type := p.user_type, phone_number := p.phone_number,
    skills := p.skills, company := p.company,
    password_hash := hashPassword p.password }

/-- `UserUpdateView` (PUT `user-profile/<pk>/`): `IsAuthenticated`, then
`get_object` drawn from `get_queryset = User.objects.filter(id=request.user.id)`
— so a `pk` other than the caller's own id finds nothing — then the
serializer validates (email uniqueness excluding the instance) and
writes back. -/
def userUpdate (s : DBState) (caller : Option User) (pk : Nat)
    (p : RegisterPayload) : UpdateOutcome × DBState :=
  match caller with
  | none => (.unauthenticated, s)
  | some u =>
    match (s.users.filter (fun v => v.id == u.id)).find? (fun v => v.id == pk) with
    | none => (.notFound, s)
    | some target =>
      if ¬ registerFieldsValid p then (.validationError "field required", s)
      else if s.users.any (fun v => v.email == p.email && v.id != target.id) then
        (.validationError "user with this email already exists.", s)
      else
        match roleFieldError p with
        | some m => (.validationError m, s)
        | none =>
          let u' := applyProfileUpdate target p
          (.updated u',
            { s with users := s.users.map (fun v => if v.id == target.id then u' else v) })

/-! ## Notifications (`signals.py`) -/

/-- Arguments of one `send_mail` call. -/
structure Mail where
  subject : String
  message : String
  from_email : String
  recipient_list : List String
deriving DecidableEq, Repr

/-- The employer notification built in `send_application_notifications`. -/
def employerMail (job : JobListing) (applicant employer : User) : Mail :=
  { subject := "New Application for " ++ job.title,
    message := applicant.full_name ++
      " has applied for your job posting: " ++ job.title ++ ".",
    from_email := "no-reply@example.com",
    recipient_list := [employer.email] }

/-- The applicant confirmation built in `send_application_notifications`. -/
def applicantMail (job : JobListing) (applicant : User) : Mail :=
  { subject := "Application Received: " ++ job.title,
    message := "Your application for " ++ job.title ++
      " has been submitted successfully.",
    from_email := "no-reply@example.com",
    recipient_list := [applicant.email] }

/-- Django's `send_mail` viewed through its failure behaviour: `deliver`
is the external mail backend (`true` = delivered); with
`fail_silently=False` a backend failure raises, with `fail_silently=True`
it is swallowed. -/
def sendMail (deliver : Mail → Bool) (fail_silently : Bool) (m : Mail) :
    Except String Unit :=
  if deliver m then .ok ()
  else if fail_silently then .ok ()
  else .error ("send_mail failed: " ++ m.subject)

/-- `send_application_notifications` (`signals.py`): on `created = True`
it sends the employer mail and then the applicant mail, both with
`fail_silently=False`; on an update (`created = False`) it does nothing.
Returns the mails handed to the backend when no call raised. -/
def send_application_notifications (deliver : Mail → Bool)
    (job : JobListing) (applicant employer : User) (created : Bool) :
    Except String (List Mail) :=
  if created then
    match sendMail deliver false (employerMail job applicant employer) with
    | .error e => .error e
    | .ok _ =>
      match sendMail deliver false (applicantMail job applicant) with
      | .error e => .error e
      | .ok _ => .ok [employerMail job applicant employer, applicantMail job applicant]
  else .ok []

/-! ## Query views (`AppliedJobsListView`, `SavedJobListView`) -/

/-- Insert `x` into a list already sorted by `key` descending. -/
def insertDescBy {α : Type} (key : α → Nat) (x : α) : List α → List α
  | [] => [x]
  | y :: ys => if key y ≤ key x then x :: y :: ys else y :: insertDescBy key x ys

/-- Sort by `key` descending (the model of `order_by("-field")`). -/
def sortDescBy {α : Type} (key : α → Nat) : List α → List α
  | [] => []
  | x :: xs => insertDescBy key x (sortDescBy key xs)

/-- `AppliedJobsListView.get_queryset`:
`JobApplication.objects.filter(applicant=request.user).order_by("-created_at")`. -/
def applications_for (s : DBState) (uid : Nat) : List JobApplication :=
  sortDescBy (fun a => a.created_at)
    (s.applications.filter (fun a => a.applicant == uid))

/-- `SavedJobListView.get_queryset`:
`SavedJob.objects.filter(user=request.user).order_by("-saved_at")`. -/
def saved_for (s : DBState) (uid : Nat) : List SavedJob :=
  sortDescBy (fun r => r.saved_at)
    (s.saved_jobs.filter (fun r => r.user == uid))

/-! ## Concrete fixtures

A small database used to instantiate the theorems below: one employer
(who owns an active and an inactive listing), one job seeker, no
applications or saved jobs yet. -/

def exEmployer : User :=
  { id := 1, email := "alice@example.com", full_name := "Alice Employer",
    user_type := .employer, phone_number := "1234567890",
    skills := none, company := some "OpenAI Corp",
    password_hash := hashPassword "strongpass123", is_active := true }

def exSeeker : User :=
  { id := 2, email := "aslam@example.com", full_name := "Aslam M",
    user_type := .job_seeker, phone_number := "1234677890",
    skills := some "python", company := none,
    password_hash := hashPassword "strongpass12323", is_active := true }

def exListing : JobListing :=
  { id := 10, title := "Backend Developer",
    description := "Develop APIs with Django",
    requirements := "3+ years experience", location := "Remote",
    salary := "5000", company_name := some "OpenAI Corp", employer := 1,
    is_active := true, created_at := 3, updated_at := 3 }

def exInactiveListing : JobListing :=
  { id := 7, title := "Old Role", description := "closed",
    requirements := "n/a", location := "Remote", salary := "1000",
    company_name := some "OpenAI Corp", employer := 1,
    is_active := false, created_at := 1, updated_at := 2 }

def exState : DBState :=
  { users := [exEmployer, exSeeker],
    listings := [exListing, exInactiveListing],
    applications := [], saved_jobs := [], tokens := [],
    next_id := 100, now := 5 }

def exApplyPayload : ApplyPayload :=
  { job := 10, resume := some "resumes/cv.pdf", cover_letter := none }

def exListingPayload : ListingPayload :=
  { title := "Backend Developer", description := "Develop APIs with Django",
    requirements := "3+ years experience", location := "Remote",
    salary := "5000", is_active := none }

def exRegisterPayload : RegisterPayload :=
  { full_name := "Ale Emoyer", email := "alejob@jobseek.com",
    password := "strosngpass123", user_type := .job_seeker,
    phone_number := "1234567890", skills := some "python", company := none }

/-- A registration attempt with `role = job_seeker` and no skills. -/
def exNoSkillsPayload : RegisterPayload :=
  { full_name := "Ale Emoyer", email := "alejob@jobseek.com",
    password := "strosngpass123", user_type := .job_seeker,
    phone_number := "1234567890", skills := none, company := none }

/-- An application row for the (listing 10, seeker 2) pair, as committed
by a concurrent request between another request's existence check and
its insert. -/
def exRaceApplication : JobApplication :=
  { id := 50, job := 10, applicant := 2, resume := "resumes/other.pdf",
    cover_letter := none, status := .PENDING, created_at := 4,
    updated_at := 4 }

/-- A saved-job row for the (listing 10, seeker 2) pair committed by a
concurrent request. -/
def exRaceSaved : SavedJob :=
  { id := 51, job := 10, user := 2, saved_at := 4 }

/-- `exState` after a concurrent request committed `exRaceApplication`
and `exRaceSaved`. -/
def exRaceState : DBState :=
  { exState with
    applications := [exRaceApplication],
    saved_jobs := [exRaceSaved], next_id := 102 }

/-- The user row created by `registerUser exState exRegisterPayload`. -/
def exNewUser : User :=
  { id := 100, email := "alejob@jobseek.com", full_name := "Ale Emoyer",
    user_type := .job_seeker, phone_number := "1234567890",
    skills := some "python", company := none,
    password_hash := hashPassword "strosngpass123", is_active := true }

/-- The token minted for `exNewUser`. -/
def exNewToken : Token :=
  { key := "token-100", user := 100 }

/-- `exState` after the successful registration of `exNewUser`. -/
def exStateAfterRegister : DBState :=
  { exState with
    users := exState.users ++ [exNewUser],
    tokens := [exNewToken], next_id := 101 }

/-- The listing produced by `createListing exState (some exEmployer)
exListingPayload`. -/
def exCreatedListing : JobListing :=
  { id := 100, title := "Backend Developer",
    description := "Develop APIs with Django",
    requirements := "3+ years experience", location := "Remote",
    salary := "5000", company_name := some "OpenAI Corp", employer := 1,
    is_active := true, created_at := 5, updated_at := 5 }

/-- Listing 10 after `updateListing` with `exListingPayload`. -/
def exUpdatedListing : JobListing :=
  { exListing with updated_at := 5 }

/-- Listing 10 after the `closejob` command. -/
def exClosedListing : JobListing :=
  { exListing with is_active := false, updated_at := 5 }

/-! ## Theorems -/

/-- C2: the authorization policy decides every request as the spec says:
list/retrieve of listings is allowed to any authenticated identity;
create-listing only to employers; update/delete of a listing only to the
employer identity that owns it (every other identity, other employers
included, is denied); apply/save operations only to job seekers; and an
unauthenticated caller is rejected (with the distinct 401 outcome)
before any role rule is evaluated. -/
theorem C2_authorization_policy (u : User) (l : JobListing) :
    listingDecision (some u) .list none = .allow ∧
    listingDecision (some u) .retrieve (some l) = .allow ∧
    (listingDecision (some u) .create none = .allow ↔
      u.user_type = Role.employer) ∧
    (listingDecision (some u) .update (some l) = .allow ↔
      (u.user_type = Role.employer ∧ l.employer = u.id)) ∧
    (listingDecision (some u) .partial_update (some l) = .allow ↔
      (u.user_type = Role.employer ∧ l.employer = u.id)) ∧
    (listingDecision (some u) .destroy (some l) = .allow ↔
      (u.user_type = Role.employer ∧ l.employer = u.id)) ∧
    (jobSeekerDecision (some u) = .allow ↔
      u.user_type = Role.job_seeker) ∧
    (∀ a obj, listingDecision none a obj = .denyUnauthenticated) ∧
    jobSeekerDecision none = .denyUnauthenticated := by
  refine ⟨?_, ?_, ?_, ?_, ?_, ?_, ?_, ?_, ?_⟩ <;>
    simp [listingDecision, jobSeekerDecision, hasPermissionListing,
      hasObjectPermissionListing, ListingAction.safeMethod] <;>
    cases h : u.user_type <;>
    simp_all

/-- C2 witness: on the fixtures, a job seeker may list and apply but not
update another identity's listing, and an anonymous caller is rejected
as unauthenticated. -/
theorem C2_authorization_policy_witness :
    listingDecision (some exSeeker) .list none = .allow ∧
    jobSeekerDecision (some exSeeker) = .allow ∧
    ¬ listingDecision (some exSeeker) .update (some exListing) = .allow ∧
    (∀ a obj, listingDecision none a obj = .denyUnauthenticated) := by
  have h := C2_authorization_policy exSeeker exListing
  refine ⟨h.1, (h.2.2.2.2.2.2.1).mpr (by decide), ?_, h.2.2.2.2.2.2.2.1⟩
  intro hc
  have := (h.2.2.2.1).mp hc
  simp [exSeeker] at this

/-! ### Sorting lemmas for the query views -/

theorem mem_insertDescBy {α : Type} (key : α → Nat) (x a : α) (l : List α) :
    a ∈ insertDescBy key x l ↔ a = x ∨ a ∈ l := by
  induction l with
  | nil => simp [insertDescBy]
  | cons y ys ih =>
    by_cases h : key y ≤ key x
    · simp [insertDescBy, h]
    · simp [insertDescBy, h, ih]
      tauto

theorem perm_insertDescBy {α : Type} (key : α → Nat) (x : α) (l : List α) :
    (insertDescBy key x l).Perm (x :: l) := by
  induction l with
  | nil => simp [insertDescBy]
  | cons y ys ih =>
    by_cases h : key y ≤ key x
    · simp [insertDescBy, h]
    · simp only [insertDescBy, h, if_neg]
      exact ((ih.cons y).trans (List.Perm.swap x y ys))

theorem pairwise_insertDescBy {α : Type} (key : α → Nat) (x : α) (l : List α)
    (h : l.Pairwise (fun a b => key b ≤ key a)) :
    (insertDescBy key x l).Pairwise (fun a b => key b ≤ key a) := by
  induction l with
  | nil => simp [insertDescBy]
  | cons y ys ih =>
    rcases List.pairwise_cons.mp h with ⟨hy, hys⟩
    by_cases hxy : key y ≤ key x
    · simp only [insertDescBy, if_pos hxy]
      refine List.pairwise_cons.mpr ⟨?_, h⟩
      intro z hz
      rcases List.mem_cons.mp hz with rfl | hz
      · exact hxy
      · exact le_trans (hy z hz) hxy
    · simp only [insertDescBy, hxy, if_neg, not_false_iff]
      refine List.pairwise_cons.mpr ⟨?_, ih hys⟩
      intro z hz
      rcases (mem_insertDescBy key x z ys).mp hz with rfl | hz
      · exact Nat.le_of_not_le hxy
      · exact hy z hz

theorem sortDescBy_perm {α : Type} (key : α → Nat) (l : List α) :
    (sortDescBy key l).Perm l := by
  induction l with
  | nil => simp [sortDescBy]
  | cons x xs ih =>
    exact (perm_insertDescBy key x (sortDescBy key xs)).trans (ih.cons x)

theorem sortDescBy_pairwise {α : Type} (key : α → Nat) (l : List α) :
    (sortDescBy key l).Pairwise (fun a b => key b ≤ key a) := by
  induction l with
  | nil => simp [sortDescBy]
  | cons x xs ih => exact pairwise_insertDescBy key x _ ih

/-- C9: `applications_for` returns exactly the caller's applications (a
permutation of the applicant-filtered table, hence membership exactly
for rows whose applicant is the identity) sorted newest-first by
`created_at`, and `saved_for` returns exactly the caller's saved rows
sorted newest-first by `saved_at`. -/
theorem C9_own_rows_newest_first (s : DBState) (uid : Nat) :
    (applications_for s uid).Perm
      (s.applications.filter (fun a => a.applicant == uid)) ∧
    (∀ a, a ∈ applications_for s uid ↔
      (a ∈ s.applications ∧ a.applicant = uid)) ∧
    (applications_for s uid).Pairwise
      (fun a b => b.created_at ≤ a.created_at) ∧
    (saved_for s uid).Perm
      (s.saved_jobs.filter (fun r => r.user == uid)) ∧
    (∀ r, r ∈ saved_for s uid ↔
      (r ∈ s.saved_jobs ∧ r.user = uid)) ∧
    (saved_for s uid).Pairwise (fun a b => b.saved_at ≤ a.saved_at) := by
  refine ⟨sortDescBy_perm _ _, ?_, sortDescBy_pairwise _ _,
    sortDescBy_perm _ _, ?_, sortDescBy_pairwise _ _⟩
  · intro a
    rw [applications_for, (sortDescBy_perm _ _).mem_iff, List.mem_filter]
    simp
  · intro r
    rw [saved_for, (sortDescBy_perm _ _).mem_iff, List.mem_filter]
    simp

/-- C9 witness: on a database holding three applications (two by the
seeker, one by someone else) the view returns exactly the seeker's two,
newest first. -/
theorem C9_own_rows_newest_first_witness :
    applications_for
      { exState with applications :=
          [{ exRaceApplication with id := 60, created_at := 4 },
           { exRaceApplication with id := 61, applicant := 9, created_at := 9 },
           { exRaceApplication with id := 62, created_at := 8 }] } 2 =
      [{ exRaceApplication with id := 62, created_at := 8 },
       { exRaceApplication with id := 60, created_at := 4 }] ∧
    ({ exRaceApplication with id := 61, applicant := 9, created_at := 9 } ∉
      applications_for
        { exState with applications :=
            [{ exRaceApplication with id := 60, created_at := 4 },
             { exRaceApplication with id := 61, applicant := 9, created_at := 9 },
             { exRaceApplication with id := 62, created_at := 8 }] } 2) := by
  constructor
  · decide
  · intro hmem
    have h := (C9_own_rows_newest_first
      { exState with applications :=
          [{ exRaceApplication with id := 60, created_at := 4 },
           { exRaceApplication with id := 61, applicant := 9, created_at := 9 },
           { exRaceApplication with id := 62, created_at := 8 }] } 2).2.1
      { exRaceApplication with id := 61, applicant := 9, created_at := 9 }
    have := (h.mp hmem).2
    simp [exRaceApplication] at this

/-! ### Counting lemmas for the duplicate-prevention invariants -/

theorem length_filter_append_single {α : Type} (p : α → Bool) (l : List α)
    (a : α) :
    ((l ++ [a]).filter p).length =
      (l.filter p).length + (if p a then 1 else 0) := by
  rw [List.filter_append]
  cases h : p a <;> simp [List.filter, h]

theorem countApplications_zero_iff (t : DBState) (A B : Nat) :
    countApplications t A B = 0 ↔
      t.applications.any (fun a => a.job == A && a.applicant == B) = false := by
  rw [countApplications, List.length_eq_zero, List.filter_eq_nil_iff,
    List.any_eq_false]

theorem countSaved_zero_iff (t : DBState) (A B : Nat) :
    countSaved t A B = 0 ↔
      t.saved_jobs.any (fun r => r.job == A && r.user == B) = false := by
  rw [countSaved, List.length_eq_zero, List.filter_eq_nil_iff,
    List.any_eq_false]

/-- One apply request never pushes the row count of any
(listing, applicant) pair above 1: the duplicate check blocks a
same-state duplicate and the unique constraint blocks the rest. -/
theorem countApplications_handleApply_le_one (t : DBState) (c : Option User)
    (j : Nat) (q : ApplyPayload) (A B : Nat)
    (h : countApplications t A B ≤ 1) :
    countApplications (handleApply t c j q).2 A B ≤ 1 := by
  cases c with
  | none => exact h
  | some u =>
    rw [handleApply.eq_def, jobSeekerDecision]
    by_cases hrole : (u.user_type == Role.job_seeker) = true
    · rw [if_pos hrole]
      show countApplications (applyPost t u j q).2 A B ≤ 1
      rw [applyPost, applyPhases]
      cases hf : t.listings.find? (fun l => l.id == j && l.is_active) with
      | none => exact h
      | some job =>
        dsimp only
        by_cases hdup :
            (t.applications.any
              (fun a => a.job == job.id && a.applicant == u.id)) = true
        · simp only [hdup, if_true]
          exact h
        · rw [if_neg hdup]
          by_cases hval : (applyPayloadValid t q) = true
          · rw [if_pos hval]
            cases hres : q.resume with
            | none => exact h
            | some r =>
              dsimp only
              simp only [dbInsertApplication, mkApplication]
              rw [if_neg hdup]
              show ((t.applications ++
                [mkApplication t job.id u.id r q.cover_letter]).filter
                  (fun a => a.job == A && a.applicant == B)).length ≤ 1
              rw [length_filter_append_single]
              split
              · next hc =>
                have hA : job.id = A := by
                  have := (Bool.and_eq_true _ _).mp hc
                  exact beq_iff_eq.mp this.1
                have hB : u.id = B := by
                  have := (Bool.and_eq_true _ _).mp hc
                  exact beq_iff_eq.mp this.2
                subst hA; subst hB
                have h0 : countApplications t job.id u.id = 0 :=
                  (countApplications_zero_iff t job.id u.id).mpr
                    (Bool.not_eq_true _ ▸ (eq_false_of_ne_true hdup))
                rw [countApplications] at h0
                rw [h0]
              · exact Nat.le_trans (Nat.le_of_eq (Nat.add_zero _)) h
          · rw [if_neg hval]
            exact h
    · rw [if_neg hrole]
      exact h

/-- C1: for a (listing, identity) pair with no application yet, the
first apply creates exactly one `PENDING` application row for the pair;
a second apply with the same pair fails with the duplicate-application
error and changes nothing; and no apply request ever pushes the row
count for the pair above 1 (the proactive check blocks a same-state
duplicate and the storage unique constraint blocks the rest). -/
theorem C1_apply_once_then_duplicate (s : DBState) (u : User) (jid : Nat)
    (p : ApplyPayload) (l : JobListing) (r : String)
    (hrole : u.user_type = Role.job_seeker)
    (hfind : s.listings.find? (fun x => x.id == jid && x.is_active) = some l)
    (h0 : countApplications s l.id u.id = 0)
    (hvalid : applyPayloadValid s p = true)
    (hres : p.resume = some r) :
    (handleApply s (some u) jid p).1 = .created ∧
    countApplications (handleApply s (some u) jid p).2 l.id u.id = 1 ∧
    (∃ a ∈ (handleApply s (some u) jid p).2.applications,
      a.job = l.id ∧ a.applicant = u.id ∧ a.status = AppStatus.PENDING) ∧
    (handleApply (handleApply s (some u) jid p).2 (some u) jid p).1 =
      .alreadyApplied ∧
    (handleApply (handleApply s (some u) jid p).2 (some u) jid p).2 =
      (handleApply s (some u) jid p).2 ∧
    (∀ (t : DBState) (c : Option User) (q : ApplyPayload),
      countApplications t l.id u.id ≤ 1 →
      countApplications (handleApply t c jid q).2 l.id u.id ≤ 1) := by
  have hrole' : (u.user_type == Role.job_seeker) = true := by simp [hrole]
  have hany : (s.applications.any
      (fun a => a.job == l.id && a.applicant == u.id)) = false :=
    (countApplications_zero_iff s l.id u.id).mp h0
  have hany' : ¬ (s.applications.any
      (fun a => a.job == l.id && a.applicant == u.id)) = true := by
    simp [hany]
  have hstep : handleApply s (some u) jid p =
      (.created,
        { s with
          applications := s.applications ++
            [mkApplication s l.id u.id r p.cover_letter],
          next_id := s.next_id + 1 }) := by
    rw [handleApply.eq_def, jobSeekerDecision, if_pos hrole']
    dsimp only
    rw [applyPost, applyPhases.eq_def, hfind]
    dsimp only
    rw [if_neg hany', if_pos hvalid, hres]
    dsimp only
    simp only [dbInsertApplication, mkApplication]
    rw [if_neg hany']
  have hnewmatch : ((mkApplication s l.id u.id r p.cover_letter).job == l.id
      && (mkApplication s l.id u.id r p.cover_letter).applicant == u.id) =
      true := by
    simp [mkApplication]
  refine ⟨by rw [hstep], ?_, ?_, ?_, ?_, ?_⟩
  · rw [hstep]
    show ((s.applications ++
      [mkApplication s l.id u.id r p.cover_letter]).filter
        (fun a => a.job == l.id && a.applicant == u.id)).length = 1
    rw [length_filter_append_single, if_pos hnewmatch]
    rw [countApplications] at h0
    rw [h0]
  · rw [hstep]
    refine ⟨_, List.mem_append_right _ (List.mem_singleton.mpr rfl),
      rfl, rfl, rfl⟩
  · rw [hstep]
    rw [handleApply.eq_def, jobSeekerDecision, if_pos hrole']
    dsimp only
    rw [applyPost, applyPhases.eq_def]
    dsimp only
    rw [hfind]
    dsimp only
    rw [if_pos (by rw [List.any_append]
                   simp only [hany, List.any_cons, List.any_nil, hnewmatch]
                   rfl)]
  · rw [hstep]
    rw [handleApply.eq_def, jobSeekerDecision, if_pos hrole']
    dsimp only
    rw [applyPost, applyPhases.eq_def]
    dsimp only
    rw [hfind]
    dsimp only
    rw [if_pos (by rw [List.any_append]
                   simp only [hany, List.any_cons, List.any_nil, hnewmatch]
                   rfl)]
  · intro t c q hle
    exact countApplications_handleApply_le_one t c jid q l.id u.id hle

/-- C1 witness: on the fixtures, the seeker's first apply to listing 10
is created with one `PENDING` row for the pair, and an immediate second
apply is rejected as a duplicate leaving the count at 1. -/
theorem C1_apply_once_then_duplicate_witness :
    (handleApply exState (some exSeeker) 10 exApplyPayload).1 =
      ApplyOutcome.created ∧
    countApplications (handleApply exState (some exSeeker) 10
      exApplyPayload).2 10 2 = 1 ∧
    (handleApply (handleApply exState (some exSeeker) 10 exApplyPayload).2
      (some exSeeker) 10 exApplyPayload).1 = ApplyOutcome.alreadyApplied := by
  have h := C1_apply_once_then_duplicate exState exSeeker 10 exApplyPayload
    exListing "resumes/cv.pdf" rfl (by decide) (by decide) (by decide) rfl
  exact ⟨h.1, h.2.1, h.2.2.2.1⟩

/-- When the listing lookup succeeds, apply never reports the combined
not-found-or-inactive outcome. -/
theorem applyPhases_fst_ne_notFound (sC sI : DBState) (u : User) (jid : Nat)
    (p : ApplyPayload) (job : JobListing)
    (hf : sC.listings.find? (fun l => l.id == jid && l.is_active) = some job) :
    (applyPhases sC sI u jid p).1 ≠ .notFoundOrInactive := by
  rw [applyPhases.eq_def, hf]
  dsimp only
  split
  · simp
  · split
    · cases p.resume with
      | none => simp
      | some r =>
        dsimp only
        split <;> simp
    · simp

/-- C3: for a job-seeker caller, apply answers the single combined
not-found-or-inactive outcome exactly when no listing with the requested
id exists or the listing is inactive, and in that case the database is
left unchanged (no application row is created). -/
theorem C3_apply_not_found_or_inactive (s : DBState) (u : User) (jid : Nat)
    (p : ApplyPayload) (hrole : u.user_type = Role.job_seeker) :
    ((handleApply s (some u) jid p).1 = .notFoundOrInactive ↔
      ¬ ∃ l ∈ s.listings, l.id = jid ∧ l.is_active = true) ∧
    ((handleApply s (some u) jid p).1 = .notFoundOrInactive →
      (handleApply s (some u) jid p).2 = s) := by
  have hrole' : (u.user_type == Role.job_seeker) = true := by simp [hrole]
  have hpipe : handleApply s (some u) jid p = applyPost s u jid p := by
    rw [handleApply.eq_def, jobSeekerDecision, if_pos hrole']
  cases hf : s.listings.find? (fun l => l.id == jid && l.is_active) with
  | none =>
    have hstep : applyPost s u jid p = (.notFoundOrInactive, s) := by
      rw [applyPost, applyPhases.eq_def, hf]
    rw [hpipe, hstep]
    refine ⟨iff_of_true rfl ?_, fun _ => rfl⟩
    rintro ⟨l, hl, h1, h2⟩
    have hx := List.find?_eq_none.mp hf l hl
    simp [h1, h2] at hx
  | some job =>
    have hne : (applyPost s u jid p).1 ≠ .notFoundOrInactive :=
      applyPhases_fst_ne_notFound s s u jid p job hf
    have hmem : job ∈ s.listings := List.mem_of_find?_eq_some hf
    have hjob := List.find?_some hf
    rw [Bool.and_eq_true] at hjob
    have hex : ∃ l ∈ s.listings, l.id = jid ∧ l.is_active = true :=
      ⟨job, hmem, beq_iff_eq.mp hjob.1, hjob.2⟩
    rw [hpipe]
    exact ⟨iff_of_false hne (fun hn => hn hex), fun h => absurd h hne⟩

/-- C3 witness: applying to the inactive listing 7 (which exists but is
inactive) yields the combined outcome and leaves the state untouched;
the same holds for the absent id 99. -/
theorem C3_apply_not_found_or_inactive_witness :
    (handleApply exState (some exSeeker) 7 exApplyPayload).1 =
      ApplyOutcome.notFoundOrInactive ∧
    (handleApply exState (some exSeeker) 7 exApplyPayload).2 = exState ∧
    (handleApply exState (some exSeeker) 99 exApplyPayload).1 =
      ApplyOutcome.notFoundOrInactive := by
  have h7 := C3_apply_not_found_or_inactive exState exSeeker 7
    exApplyPayload rfl
  have h99 := C3_apply_not_found_or_inactive exState exSeeker 99
    exApplyPayload rfl
  have o7 : (handleApply exState (some exSeeker) 7 exApplyPayload).1 =
      ApplyOutcome.notFoundOrInactive := h7.1.mpr (by decide)
  exact ⟨o7, h7.2 o7, h99.1.mpr (by decide)⟩

/-- One save request never pushes the row count of any (listing, user)
pair above 1. -/
theorem countSaved_handleSave_le_one (t : DBState) (c : Option User)
    (j : Nat) (A B : Nat) (h : countSaved t A B ≤ 1) :
    countSaved (handleSave t c j).2 A B ≤ 1 := by
  cases c with
  | none => exact h
  | some u =>
    rw [handleSave.eq_def, jobSeekerDecision]
    by_cases hrole : (u.user_type == Role.job_seeker) = true
    · rw [if_pos hrole]
      show countSaved (savePost t u j).2 A B ≤ 1
      rw [savePost, savePhases.eq_def]
      cases hf : t.listings.find? (fun l => l.id == j) with
      | none => exact h
      | some job =>
        dsimp only
        by_cases hdup :
            (t.saved_jobs.any
              (fun r => r.job == job.id && r.user == u.id)) = true
        · simp only [hdup, if_true]
          exact h
        · rw [if_neg hdup]
          simp only [dbInsertSavedJob, mkSavedJob]
          rw [if_neg hdup]
          show ((t.saved_jobs ++ [mkSavedJob t job.id u.id]).filter
            (fun r => r.job == A && r.user == B)).length ≤ 1
          rw [length_filter_append_single]
          split
          · next hc =>
            have hA : job.id = A := by
              have := (Bool.and_eq_true _ _).mp hc
              exact beq_iff_eq.mp this.1
            have hB : u.id = B := by
              have := (Bool.and_eq_true _ _).mp hc
              exact beq_iff_eq.mp this.2
            subst hA; subst hB
            have h0 : countSaved t job.id u.id = 0 :=
              (countSaved_zero_iff t job.id u.id).mpr
                (Bool.not_eq_true _ ▸ (eq_false_of_ne_true hdup))
            rw [countSaved] at h0
            rw [h0]
          · exact Nat.le_trans (Nat.le_of_eq (Nat.add_zero _)) h
    · rw [if_neg hrole]
      exact h

/-- C5: for a job-seeker caller, save fails with not-found exactly when
no listing with the id exists (the active flag is irrelevant, so an
inactive listing can be saved); it fails with already-saved exactly when
the listing exists and a saved row for the pair exists, changing
nothing; otherwise it creates exactly one saved row; and no save request
pushes the count for a pair above 1. -/
theorem C5_save_workflow (s : DBState) (u : User) (jid : Nat)
    (hrole : u.user_type = Role.job_seeker) :
    ((handleSave s (some u) jid).1 = .notFound ↔
      ¬ ∃ l ∈ s.listings, l.id = jid) ∧
    ((handleSave s (some u) jid).1 = .notFound →
      (handleSave s (some u) jid).2 = s) ∧
    ((handleSave s (some u) jid).1 = .alreadySaved ↔
      ((∃ l ∈ s.listings, l.id = jid) ∧
        ∃ r ∈ s.saved_jobs, r.job = jid ∧ r.user = u.id)) ∧
    ((handleSave s (some u) jid).1 = .alreadySaved →
      (handleSave s (some u) jid).2 = s) ∧
    ((∃ l ∈ s.listings, l.id = jid) →
      (¬ ∃ r ∈ s.saved_jobs, r.job = jid ∧ r.user = u.id) →
      (handleSave s (some u) jid).1 = .created ∧
      countSaved (handleSave s (some u) jid).2 jid u.id = 1) ∧
    (∀ (t : DBState) (c : Option User), countSaved t jid u.id ≤ 1 →
      countSaved (handleSave t c jid).2 jid u.id ≤ 1) := by
  have hrole' : (u.user_type == Role.job_seeker) = true := by simp [hrole]
  have hpipe : handleSave s (some u) jid = savePost s u jid := by
    rw [handleSave.eq_def, jobSeekerDecision, if_pos hrole']
  cases hf : s.listings.find? (fun l => l.id == jid) with
  | none =>
    have hstep : savePost s u jid = (.notFound, s) := by
      rw [savePost, savePhases.eq_def, hf]
    have hnone : ¬ ∃ l ∈ s.listings, l.id = jid := by
      rintro ⟨l, hl, h1⟩
      have hx := List.find?_eq_none.mp hf l hl
      simp [h1] at hx
    rw [hpipe, hstep]
    refine ⟨iff_of_true rfl hnone, fun _ => rfl,
      iff_of_false (by simp) (fun hc => hnone hc.1), by simp,
      fun hex _ => absurd hex hnone,
      fun t c => countSaved_handleSave_le_one t c jid jid u.id⟩
  | some job =>
    have hjob : job.id = jid := by
      have := List.find?_some hf
      exact beq_iff_eq.mp this
    subst hjob
    have hmem : job ∈ s.listings := List.mem_of_find?_eq_some hf
    have hex : ∃ l ∈ s.listings, l.id = job.id := ⟨job, hmem, rfl⟩
    by_cases hdup :
        (s.saved_jobs.any (fun r => r.job == job.id && r.user == u.id)) = true
    · have hstep : savePost s u job.id = (.alreadySaved, s) := by
        rw [savePost, savePhases.eq_def, hf]
        dsimp only
        rw [if_pos hdup]
      have hpair : ∃ r ∈ s.saved_jobs, r.job = job.id ∧ r.user = u.id := by
        rcases List.any_eq_true.mp hdup with ⟨r, hr, hp⟩
        rw [Bool.and_eq_true] at hp
        exact ⟨r, hr, beq_iff_eq.mp hp.1, beq_iff_eq.mp hp.2⟩
      rw [hpipe, hstep]
      exact ⟨iff_of_false (by simp) (fun hn => hn hex),
        by simp, iff_of_true rfl ⟨hex, hpair⟩, fun _ => rfl,
        fun _ hno => absurd hpair hno,
        fun t c => countSaved_handleSave_le_one t c job.id job.id u.id⟩
    · have hstep : savePost s u job.id =
          (.created,
            { s with
              saved_jobs := s.saved_jobs ++ [mkSavedJob s job.id u.id],
              next_id := s.next_id + 1 }) := by
        rw [savePost, savePhases.eq_def, hf]
        dsimp only
        rw [if_neg hdup]
        simp only [dbInsertSavedJob, mkSavedJob]
        rw [if_neg hdup]
      have hnopair : ¬ ∃ r ∈ s.saved_jobs, r.job = job.id ∧ r.user = u.id := by
        rintro ⟨r, hr, h1, h2⟩
        exact hdup (List.any_eq_true.mpr ⟨r, hr, by simp [h1, h2]⟩)
      have hmatch : ((mkSavedJob s job.id u.id).job == job.id &&
          (mkSavedJob s job.id u.id).user == u.id) = true := by
        simp [mkSavedJob]
      rw [hpipe, hstep]
      refine ⟨iff_of_false (by simp) (fun hc => hc hex), by simp,
        iff_of_false (by simp) (fun hc => hnopair hc.2), by simp,
        fun _ _ => ⟨rfl, ?_⟩,
        fun t c => countSaved_handleSave_le_one t c job.id job.id u.id⟩
      show ((s.saved_jobs ++ [mkSavedJob s job.id u.id]).filter
        (fun r => r.job == job.id && r.user == u.id)).length = 1
      rw [length_filter_append_single, if_pos hmatch]
      have h0 : countSaved s job.id u.id = 0 :=
        (countSaved_zero_iff s job.id u.id).mpr
          (Bool.not_eq_true _ ▸ (eq_false_of_ne_true hdup))
      rw [countSaved] at h0
      rw [h0]

/-- C5 witness: the seeker saves the inactive listing 7 successfully
(one row for the pair), saving an absent id 99 is not-found, and saving
7 again is already-saved. -/
theorem C5_save_workflow_witness :
    (handleSave exState (some exSeeker) 7).1 = SaveOutcome.created ∧
    countSaved (handleSave exState (some exSeeker) 7).2 7 2 = 1 ∧
    (handleSave exState (some exSeeker) 99).1 = SaveOutcome.notFound ∧
    (handleSave (handleSave exState (some exSeeker) 7).2
      (some exSeeker) 7).1 = SaveOutcome.alreadySaved := by
  have h7 := C5_save_workflow exState exSeeker 7 rfl
  have h99 := C5_save_workflow exState exSeeker 99 rfl
  have h7' := C5_save_workflow (handleSave exState (some exSeeker) 7).2
    exSeeker 7 rfl
  have hc := h7.2.2.2.2.1 (by decide) (by decide)
  exact ⟨hc.1, hc.2, h99.1.mpr (by decide), h7'.2.2.1.mpr (by decide)⟩

/-- C4: after every successful save of a listing — creation, owner
update, and the administrative close command — the persisted listing's
`company_name` equals the owning employer's current `company` field
(re-derived at write time, and not drawn from the client payload, which
has no such field). -/
theorem C4_company_name_derived (s : DBState) (u : User) (p : ListingPayload)
    (lid : Nat) :
    (∀ l s', createListing s (some u) p = (.ok l, s') →
      l.company_name = u.company ∧ l ∈ s'.listings) ∧
    (∀ l s', updateListing s (some u) lid p = (.ok l, s') →
      (∀ ow, findUserById s l.employer = some ow →
        l.company_name = ow.company) ∧ l ∈ s'.listings) ∧
    (∀ l s', closeJob s lid = (.closed l, s') →
      (∀ ow, findUserById s l.employer = some ow →
        l.company_name = ow.company) ∧ l.is_active = false ∧
        l ∈ s'.listings) := by
  refine ⟨?_, ?_, ?_⟩
  · intro l s' h
    rw [createListing.eq_def] at h
    split at h
    · simp at h
    · simp at h
    · dsimp only at h
      split at h
      · rw [Prod.mk.injEq, ListingOutcome.ok.injEq] at h
        obtain ⟨h1, h2⟩ := h
        subst h1; subst h2
        exact ⟨by simp [JobListing.applySave],
          List.mem_append_right _ (List.mem_singleton.mpr rfl)⟩
      · simp at h
  · intro l s' h
    rw [updateListing.eq_def] at h
    dsimp only at h
    split at h
    · split at h
      · simp at h
      · rename_i inst hinst
        split at h
        · split at h
          · split at h
            · simp at h
            · rename_i owner howner
              rw [Prod.mk.injEq, ListingOutcome.ok.injEq] at h
              obtain ⟨h1, h2⟩ := h
              subst h1; subst h2
              refine ⟨?_, ?_⟩
              · intro ow how
                have how' : findUserById s inst.employer = some ow := how
                have hoe : ow = owner :=
                  Option.some.inj (how'.symm.trans howner)
                subst hoe
                simp [JobListing.applySave]
              · refine List.mem_map.mpr
                  ⟨inst, List.mem_of_find?_eq_some hinst, ?_⟩
                simp [JobListing.applySave]
          · simp at h
        · simp at h
    · simp at h
  · intro l s' h
    rw [closeJob.eq_def] at h
    split at h
    · simp at h
    · rename_i inst hinst
      split at h
      · simp at h
      · rename_i owner howner
        rw [Prod.mk.injEq, CloseOutcome.closed.injEq] at h
        obtain ⟨h1, h2⟩ := h
        subst h1; subst h2
        refine ⟨?_, by simp [JobListing.applySave], ?_⟩
        · intro ow how
          have how' : findUserById s inst.employer = some ow := how
          have hoe : ow = owner := Option.some.inj (how'.symm.trans howner)
          subst hoe
          simp [JobListing.applySave]
        · refine List.mem_map.mpr
            ⟨inst, List.mem_of_find?_eq_some hinst, ?_⟩
          simp [JobListing.applySave]

/-- C4 witness: on the fixtures, creating, updating and closing listing
10 each persist `company_name = "OpenAI Corp"`, the owner's current
company, and the close result is inactive. -/
theorem C4_company_name_derived_witness :
    exCreatedListing.company_name = exEmployer.company ∧
    exUpdatedListing.company_name = exEmployer.company ∧
    exClosedListing.company_name = exEmployer.company ∧
    exClosedListing.is_active = false := by
  have h := C4_company_name_derived exState exEmployer exListingPayload 10
  have hcr := h.1 exCreatedListing
    { exState with
      listings := exState.listings ++ [exCreatedListing],
      next_id := 101 } rfl
  have hup := h.2.1 exUpdatedListing
    (storeListing exState exUpdatedListing) rfl
  have hcl := h.2.2 exClosedListing
    (storeListing exState exClosedListing) rfl
  exact ⟨hcr.1, hup.1 exEmployer rfl, hcl.1 exEmployer rfl, hcl.2.1⟩

/-! ### Token lemmas for registration -/

theorem tokenGetOrCreate_users (st : DBState) (uid : Nat) :
    (tokenGetOrCreate st uid).2.users = st.users := by
  rw [tokenGetOrCreate]
  split <;> rfl

theorem tokenGetOrCreate_fst_user (st : DBState) (uid : Nat) :
    (tokenGetOrCreate st uid).1.user = uid := by
  rw [tokenGetOrCreate]
  split
  · rename_i t ht
    have hp := List.find?_some ht
    exact beq_iff_eq.mp hp
  · rfl

theorem tokenGetOrCreate_fst_mem (st : DBState) (uid : Nat) :
    (tokenGetOrCreate st uid).1 ∈ (tokenGetOrCreate st uid).2.tokens := by
  rw [tokenGetOrCreate]
  split
  · rename_i t ht
    exact List.mem_of_find?_eq_some ht
  · dsimp only
    exact List.mem_append_right _ (List.mem_singleton.mpr rfl)

/-- C7: registration fails with a validation error — creating no user
row — whenever the role-specific required field is absent or empty
(`job_seeker` without skills, `employer` without company, with the
skills message surfaced when no earlier field/uniqueness error fires);
on success the created identity stores the hashed password and a bearer
token bound to that identity is returned, newly minted when no token for
the fresh primary key existed. -/
theorem C7_register_validation (s : DBState) (p : RegisterPayload) :
    (p.user_type = Role.job_seeker → blankOpt p.skills = true →
      (∃ m, (registerUser s p).1 = .validationError m) ∧
      (registerUser s p).2 = s) ∧
    (p.user_type = Role.employer → blankOpt p.company = true →
      (∃ m, (registerUser s p).1 = .validationError m) ∧
      (registerUser s p).2 = s) ∧
    (p.user_type = Role.job_seeker → blankOpt p.skills = true →
      registerFieldsValid p = true →
      (s.users.any (fun v => v.email == p.email)) = false →
      (registerUser s p).1 =
        .validationError "Job Seekers must have skills.") ∧
    (∀ t newu s', registerUser s p = (.created t newu, s') →
      newu.password_hash = hashPassword p.password ∧
      newu ∈ s'.users ∧
      t.user = newu.id ∧
      t ∈ s'.tokens ∧
      ((∀ t' ∈ s.tokens, t'.user ≠ s.next_id) → t ∉ s.tokens)) := by
  refine ⟨?_, ?_, ?_, ?_⟩
  · intro h1 h2
    rw [registerUser, registerPhases.eq_def]
    split
    · exact ⟨⟨_, rfl⟩, rfl⟩
    · split
      · exact ⟨⟨_, rfl⟩, rfl⟩
      · rw [show roleFieldError p = some "Job Seekers must have skills."
          from by rw [roleFieldError, if_pos ⟨h1, h2⟩]]
        exact ⟨⟨_, rfl⟩, rfl⟩
  · intro h1 h2
    rw [registerUser, registerPhases.eq_def]
    split
    · exact ⟨⟨_, rfl⟩, rfl⟩
    · split
      · exact ⟨⟨_, rfl⟩, rfl⟩
      · rw [show roleFieldError p = some "Employers must provide a company."
          from by rw [roleFieldError, if_neg (by simp [h1]), if_pos ⟨h1, h2⟩]]
        exact ⟨⟨_, rfl⟩, rfl⟩
  · intro h1 h2 h3 h4
    rw [registerUser, registerPhases.eq_def,
      if_neg (fun hc => hc h3), if_neg (by simp [h4]),
      show roleFieldError p = some "Job Seekers must have skills."
        from by rw [roleFieldError, if_pos ⟨h1, h2⟩]]
  · intro t newu s' h
    rw [registerUser, registerPhases.eq_def] at h
    split at h
    · simp at h
    · split at h
      · simp at h
      · split at h
        · simp at h
        · dsimp only at h
          split at h
          · simp at h
          · rename_i s1 hins
            simp only [dbInsertUser] at hins
            split at hins
            · simp at hins
            · rw [Except.ok.injEq] at hins
              subst hins
              rw [Prod.mk.injEq, RegisterOutcome.created.injEq] at h
              obtain ⟨⟨ht, hu⟩, hs⟩ := h
              subst ht
              subst hu
              subst hs
              refine ⟨rfl, ?_, ?_, ?_, ?_⟩
              · dsimp only
                rw [tokenGetOrCreate_users]
                exact List.mem_append_right _ (List.mem_singleton.mpr rfl)
              · exact tokenGetOrCreate_fst_user _ _
              · exact tokenGetOrCreate_fst_mem _ _
              · intro hfresh hmem
                have hne := hfresh _ hmem
                rw [tokenGetOrCreate_fst_user] at hne
                exact hne rfl

/-- C7 witness: registering the seeker without skills is a validation
error that leaves the user table unchanged (with the skills message),
while a valid registration stores the hashed password and mints a fresh
bound token. -/
theorem C7_register_validation_witness :
    (registerUser exState exNoSkillsPayload).1 =
      RegisterOutcome.validationError "Job Seekers must have skills." ∧
    (registerUser exState exNoSkillsPayload).2 = exState ∧
    exNewUser.password_hash = hashPassword "strosngpass123" ∧
    exNewToken.user = exNewUser.id ∧
    exNewToken ∈ exStateAfterRegister.tokens ∧
    exNewToken ∉ exState.tokens := by
  have h := C7_register_validation exState exNoSkillsPayload
  have hs := (C7_register_validation exState exRegisterPayload).2.2.2
    exNewToken exNewUser exStateAfterRegister (by decide)
  exact ⟨h.2.2.1 rfl rfl rfl rfl, (h.1 rfl rfl).2, hs.1, hs.2.2.1,
    hs.2.2.2.1, hs.2.2.2.2 (by decide)⟩

/-- C10: the self-update endpoint can only reach the caller's own row:
a request naming any other user's id resolves to nothing and fails
not-found with the state untouched, and in every case all rows of other
identities survive unchanged in the user table. -/
theorem C10_update_own_row_only (s : DBState) (u : User) (pk : Nat)
    (p : RegisterPayload) :
    (∀ v ∈ s.users, v.id ≠ u.id →
      v ∈ (userUpdate s (some u) pk p).2.users) ∧
    (pk ≠ u.id → userUpdate s (some u) pk p = (.notFound, s)) := by
  constructor
  · intro v hv hne
    rw [userUpdate.eq_def]
    dsimp only
    cases hfind : (s.users.filter (fun x => x.id == u.id)).find?
        (fun x => x.id == pk) with
    | none => exact hv
    | some target =>
      have htid : target.id = u.id := by
        have hmem := List.mem_of_find?_eq_some hfind
        have := (List.mem_filter.mp hmem).2
        exact beq_iff_eq.mp this
      dsimp only
      split
      · exact hv
      · split
        · exact hv
        · split
          · exact hv
          · refine List.mem_map.mpr ⟨v, hv, ?_⟩
            have hfalse : (v.id == target.id) = false := by
              rw [beq_eq_false_iff_ne, htid]
              exact hne
            simp [hfalse]
  · intro hne
    rw [userUpdate.eq_def]
    dsimp only
    have hfind : (s.users.filter (fun x => x.id == u.id)).find?
        (fun x => x.id == pk) = none := by
      rw [List.find?_eq_none]
      intro x hx
      have hxu : x.id = u.id :=
        beq_iff_eq.mp (List.mem_filter.mp hx).2
      intro hcon
      have : x.id = pk := beq_iff_eq.mp hcon
      rw [hxu] at this
      exact hne this.symm
    rw [hfind]

/-- C10 witness: the seeker's update request naming the employer's id is
not-found and changes nothing, and after the seeker updates their own
row the employer's row is still present unchanged. -/
theorem C10_update_own_row_only_witness :
    userUpdate exState (some exSeeker) 1 exRegisterPayload =
      (UpdateOutcome.notFound, exState) ∧
    exEmployer ∈ (userUpdate exState (some exSeeker) 2
      exRegisterPayload).2.users := by
  have h := C10_update_own_row_only exState exSeeker 1 exRegisterPayload
  have h2 := C10_update_own_row_only exState exSeeker 2 exRegisterPayload
  exact ⟨h.2 (by decide),
    h2.1 exEmployer (by decide) (by decide)⟩

/-- C8: the notification handler fires only on creation (an update sends
nothing); on creation it hands the backend exactly two mails — first the
employer notification addressed to the listing owner, then the applicant
confirmation addressed to the applicant, with the templated subjects —
and a backend failure on either is not swallowed (`fail_silently=False`):
it surfaces as an error of the workflow. -/
theorem C8_notifications (deliver : Mail → Bool) (job : JobListing)
    (applicant employer : User) :
    send_application_notifications deliver job applicant employer false =
      .ok [] ∧
    (employerMail job applicant employer).recipient_list =
      [employer.email] ∧
    (applicantMail job applicant).recipient_list = [applicant.email] ∧
    (employerMail job applicant employer).subject =
      "New Application for " ++ job.title ∧
    (applicantMail job applicant).subject =
      "Application Received: " ++ job.title ∧
    (deliver (employerMail job applicant employer) = true →
      deliver (applicantMail job applicant) = true →
      send_application_notifications deliver job applicant employer true =
        .ok [employerMail job applicant employer,
          applicantMail job applicant]) ∧
    ((deliver (employerMail job applicant employer) = false ∨
      deliver (applicantMail job applicant) = false) →
      ∃ e, send_application_notifications deliver job applicant employer
        true = .error e) := by
  refine ⟨rfl, rfl, rfl, rfl, rfl, ?_, ?_⟩
  · intro h1 h2
    rw [send_application_notifications, if_pos rfl]
    rw [show sendMail deliver false (employerMail job applicant employer) =
      .ok () from by rw [sendMail, if_pos h1]]
    rw [show sendMail deliver false (applicantMail job applicant) =
      .ok () from by rw [sendMail, if_pos h2]]
  · intro hfail
    by_cases h1 : deliver (employerMail job applicant employer) = true
    · rcases hfail with hf | hf
      · rw [h1] at hf
        exact absurd hf (by simp)
      · have heq : send_application_notifications deliver job applicant
            employer true = .error ("send_mail failed: " ++
              (applicantMail job applicant).subject) := by
          rw [send_application_notifications, if_pos rfl]
          rw [show sendMail deliver false
            (employerMail job applicant employer) = .ok () from by
            rw [sendMail, if_pos h1]]
          rw [show sendMail deliver false (applicantMail job applicant) =
            .error ("send_mail failed: " ++
              (applicantMail job applicant).subject) from by
            rw [sendMail, if_neg (by simp [hf]), if_neg (by simp)]]
        exact ⟨_, heq⟩
    · have h1' : deliver (employerMail job applicant employer) = false :=
        eq_false_of_ne_true h1
      have heq : send_application_notifications deliver job applicant
          employer true = .error ("send_mail failed: " ++
            (employerMail job applicant employer).subject) := by
        rw [send_application_notifications, if_pos rfl]
        rw [show sendMail deliver false
          (employerMail job applicant employer) = .error
            ("send_mail failed: " ++
              (employerMail job applicant employer).subject) from by
          rw [sendMail, if_neg (by simp [h1']), if_neg (by simp)]]
      exact ⟨_, heq⟩

/-- C8 witness: with a backend that delivers everything, creation sends
exactly the employer and applicant mails for listing 10 and an update
sends nothing; with a backend that fails on the employer mail, the
handler surfaces an error. -/
theorem C8_notifications_witness :
    send_application_notifications (fun _ => true) exListing exSeeker
      exEmployer true =
      .ok [employerMail exListing exSeeker exEmployer,
        applicantMail exListing exSeeker] ∧
    send_application_notifications (fun _ => true) exListing exSeeker
      exEmployer false = .ok [] ∧
    (send_application_notifications (fun _ => false) exListing exSeeker
      exEmployer true).isOk = false := by
  have hok := C8_notifications (fun _ => true) exListing exSeeker exEmployer
  have hbad := C8_notifications (fun _ => false) exListing exSeeker exEmployer
  refine ⟨hok.2.2.2.2.2.1 rfl rfl, hok.1, ?_⟩
  rcases hbad.2.2.2.2.2.2 (Or.inl rfl) with ⟨e, he⟩
  rw [he]
  rfl

/-- C6 counterexample: when a concurrent request commits the
(listing 10, seeker 2) application between this request's existence
check (run on `exState`, where the pair is absent) and its insert (run
on `exRaceState`, where it is present), the view does not report the
duplicate-application client error: the uncaught `IntegrityError`
surfaces as a server error. -/
theorem C6_race_counterexample :
    (applyPhases exState exRaceState exSeeker 10 exApplyPayload).1 =
      ApplyOutcome.serverError ∧
    (applyPhases exState exRaceState exSeeker 10 exApplyPayload).1 ≠
      ApplyOutcome.alreadyApplied ∧
    (applyPhases exState exRaceState exSeeker 10 exApplyPayload).2 =
      exRaceState := by
  decide

/-- C6 (amended): the uniqueness invariants are enforced by the storage
layer itself — a duplicate insert fails with `IntegrityError` no matter
what the application code checked — but a violation is not translated
into the duplicate/already-saved/email-taken client error: in a race
where the check passed on one state and the insert hits a state already
holding the pair, both the apply and the save workflow surface the
uncaught storage error as a server error, leaving the insert-time state
unchanged. -/
theorem C6_storage_enforced_but_untranslated (sCheck sIns : DBState)
    (u : User) (jid : Nat) (p : ApplyPayload) (a : JobApplication)
    (r : SavedJob) (v : User) (job : JobListing) (rs : String)
    (ha : ∃ b ∈ sIns.applications, b.job = a.job ∧ b.applicant = a.applicant)
    (hr : ∃ b ∈ sIns.saved_jobs, b.job = r.job ∧ b.user = r.user)
    (hv : ∃ w ∈ sIns.users, w.email = v.email)
    (hf : sCheck.listings.find? (fun l => l.id == jid && l.is_active) =
      some job)
    (hfS : sCheck.listings.find? (fun l => l.id == jid) = some job)
    (hnodup : (sCheck.applications.any
      (fun b => b.job == job.id && b.applicant == u.id)) = false)
    (hnodupS : (sCheck.saved_jobs.any
      (fun b => b.job == job.id && b.user == u.id)) = false)
    (hvalid : applyPayloadValid sCheck p = true)
    (hrs : p.resume = some rs)
    (hpair : (sIns.applications.any
      (fun b => b.job == job.id && b.applicant == u.id)) = true)
    (hpairS : (sIns.saved_jobs.any
      (fun b => b.job == job.id && b.user == u.id)) = true) :
    dbInsertApplication sIns a = .error .integrityError ∧
    dbInsertSavedJob sIns r = .error .integrityError ∧
    dbInsertUser sIns v = .error .integrityError ∧
    applyPhases sCheck sIns u jid p = (.serverError, sIns) ∧
    savePhases sCheck sIns u jid = (.serverError, sIns) := by
  refine ⟨?_, ?_, ?_, ?_, ?_⟩
  · rcases ha with ⟨b, hb, h1, h2⟩
    rw [dbInsertApplication,
      if_pos (List.any_eq_true.mpr ⟨b, hb, by simp [h1, h2]⟩)]
  · rcases hr with ⟨b, hb, h1, h2⟩
    rw [dbInsertSavedJob,
      if_pos (List.any_eq_true.mpr ⟨b, hb, by simp [h1, h2]⟩)]
  · rcases hv with ⟨w, hw, h1⟩
    rw [dbInsertUser,
      if_pos (List.any_eq_true.mpr ⟨w, hw, by simp [h1]⟩)]
  · rw [applyPhases.eq_def, hf]
    dsimp only
    rw [if_neg (by simp [hnodup]), if_pos hvalid, hrs]
    dsimp only
    simp only [dbInsertApplication, mkApplication]
    rw [if_pos hpair]
  · rw [savePhases.eq_def, hfS]
    dsimp only
    rw [if_neg (by simp [hnodupS])]
    simp only [dbInsertSavedJob, mkSavedJob]
    rw [if_pos hpairS]

/-- C6 witness for the amended statement: on the concrete race fixtures,
the storage layer rejects the duplicate application, saved-job and email
inserts, and both racing workflows end in the server-error outcome. -/
theorem C6_storage_enforced_witness :
    dbInsertApplication exRaceState exRaceApplication =
      .error .integrityError ∧
    dbInsertSavedJob exRaceState exRaceSaved = .error .integrityError ∧
    dbInsertUser exRaceState exEmployer = .error .integrityError ∧
    applyPhases exState exRaceState exSeeker 10 exApplyPayload =
      (ApplyOutcome.serverError, exRaceState) ∧
    savePhases exState exRaceState exSeeker 10 =
      (SaveOutcome.serverError, exRaceState) := by
  have h := C6_storage_enforced_but_untranslated exState exRaceState
    exSeeker 10 exApplyPayload exRaceApplication exRaceSaved exEmployer
    exListing "resumes/cv.pdf" (by decide) (by decide) (by decide)
    (by decide) (by decide) (by decide) (by decide) (by decide) rfl
    (by decide) (by decide)
  exact h

end JobBoard
